import Mathlib

/-
Verification of the ShowingHive showing-management application.

The definitions below are a shallow embedding of the scheduling and
workflow core of the repository.  The embedding covers:

* `src/extended_app.py`: the availability checkers `is_time_blocked` and
  `has_conflict`, the showing lifecycle routes `showing_list` (POST),
  `approve_showing`, `decline_showing`, `reschedule_showing`,
  `get_lockbox_code`, and the disclosure-share lifecycle routes
  `request_disclosure`, `create_share`, `approve_share`, `share_download`.
* `src/app.py` (namespace `app`): the simple variant's `add_showing`,
  `approve_showing` and `decline_showing`.

Modelling conventions:
* `datetime` instants are integers counting minutes; `timedelta(hours=1)`
  is `60` and `timedelta(hours=1, minutes=15)` is `75`.  Comparison of
  datetimes maps to integer comparison.
* Python dicts keyed by uuid strings are association lists together with
  first-match lookup (`findKey`) and first-match in-place value update
  (`updateKey`); uuid keys are fresh, so dict insertion of a new key is
  list append.
* `random.randint(0, 999999)` draws are passed in explicitly: an operation
  that draws from the RNG receives a natural number `rng` and uses
  `rng % 1000000` as the drawn value.
* `werkzeug.utils.secure_filename` is an external collaborator and is
  passed in as an explicit function argument `sanitize`.
* JSON error responses become constructors of `ApiError`; ISO date-string
  parsing, HTTP plumbing, notification dispatch (SMS/email) and activity
  logging are external side effects with no bearing on the returned data
  or the stores modelled here, and are omitted.
-/

/-- Showing status; the source stores the strings "pending", "approved"
and "declined" and never any other value. -/
inductive Status where
  | pending
  | approved
  | declined
deriving DecidableEq

/-- Error outcomes of the embedded routes, one constructor per distinct
JSON error response of the source. -/
inductive ApiError where
  | invalidPropertyId      -- "invalid property_id" (400)
  | missingFields          -- missing required field (400)
  | timeBlocked            -- "requested time is blocked" (409)
  | schedulingConflict     -- "requested time conflicts with another showing" (409)
  | showingNotFound        -- "showing not found" (404)
  | invalidState           -- "only pending showings can be approved/declined" (400)
  | notApproved            -- "showing is not approved" (400)
  | codeExpired            -- "code expired" (410)
  | propertyNotFound       -- "property not found" (404)
  | packageNotFound        -- "package not found" / "package not found for property" (404)
  | shareNotFound          -- "share not found" (404)
  | fileNotFoundInPackage  -- "file not found in package" (404)
  | fileNotFound           -- "file not found" (404)
  | downloadNotApproved    -- "download not approved" (403)
deriving DecidableEq

/-- A property record: only the fields the scheduling/share core reads.
Contact and display fields feed notification plumbing only. -/
structure Property where
  id : String
  auto_approve_showings : Bool
  requires_disclosure_approval : Bool
deriving DecidableEq

/-- A showing record of `extended_app.py`.  Client phone/email and
`created_at` feed notification plumbing only and are omitted. -/
structure Showing where
  id : String
  property_id : String
  client_name : String
  scheduled_at : Int
  status : Status
  lockbox_code : Option String
  code_expires_at : Option Int
deriving DecidableEq

/-- One blocked time range; the source keeps `blocked_times` as a dict
from property id to a list of `(start, end)` pairs, flattened here. -/
structure BlockedRange where
  property_id : String
  bstart : Int
  bend : Int
deriving DecidableEq

/-- A disclosure package (name, `is_public` and `created_at` are display
fields and omitted). -/
structure Package where
  id : String
  property_id : String
  files : List String
deriving DecidableEq

/-- A package share; `downloads` is the list of `(filename, timestamp)`
download records. -/
structure Share where
  id : String
  package_id : String
  property_id : String
  buyer_name : String
  downloads : List (String × Int)
  approved : Bool
deriving DecidableEq

/-- The in-memory stores of `extended_app.py` that the embedded routes
read or write.  `disclosures` flattens the nested dict
`Dict[property_id, Dict[filename, bytes]]` into triples
`(property_id, filename, data)`, with file bytes abstracted as strings. -/
structure State where
  properties : List Property
  showings : List Showing
  blocked_times : List BlockedRange
  packages : List Package
  package_shares : List Share
  disclosures : List (String × String × String)
deriving DecidableEq

/-- First-match lookup by key: the model of `dict.get` for stores whose
keys are unique uuid strings. -/
def findKey {α : Type} (key : α → String) : List α → String → Option α
  | [], _ => none
  | x :: xs, k => if key x = k then some x else findKey key xs k

/-- First-match value replacement: the model of mutating `d[k]` in place
after `d.get(k)` succeeded. -/
def updateKey {α : Type} (key : α → String) : List α → String → (α → α) → List α
  | [], _, _ => []
  | x :: xs, k, f => if key x = k then f x :: xs else x :: updateKey key xs k f

/-- Lookup in the flattened disclosures store: models
`disclosures.get(property_id, \x7b\x7d).get(filename)`. -/
def discGet : List (String × String × String) → String → String → Option String
  | [], _, _ => none
  | (p, f, d) :: xs, pid, fn =>
      if p = pid ∧ f = fn then some d else discGet xs pid fn

/-- Embeds `generate_lockbox_code`, i.e. the Python expression
`f"\x7brandom.randint(0, 999999):06d\x7d"`.  The caller supplies the raw RNG
draw `n`; reducing mod 1000000 yields the value of `randint(0, 999999)`,
which is rendered as a zero-padded six-digit decimal string (digits
written out from most significant to least significant). -/
def generate_lockbox_code (n : Nat) : String :=
  let v := n % 1000000
  String.mk [Nat.digitChar (v / 100000 % 10), Nat.digitChar (v / 10000 % 10),
             Nat.digitChar (v / 1000 % 10), Nat.digitChar (v / 100 % 10),
             Nat.digitChar (v / 10 % 10), Nat.digitChar (v % 10)]

/-- Embeds `is_time_blocked(property_id, start, end)`: scans the blocked
ranges of the property and reports a strict half-open overlap
`start < b_end and end > b_start`. -/
def is_time_blocked (st : State) (property_id : String) (start stop : Int) : Bool :=
  st.blocked_times.any fun b =>
    if b.property_id ≠ property_id then false
    else decide (start < b.bend ∧ stop > b.bstart)

/-- Embeds `has_conflict(property_id, start, end)`: scans all showings,
skips other properties and declined showings, and reports a strict
half-open overlap with the showing's one-hour window
`[scheduled_at, scheduled_at + 1h)`. -/
def has_conflict (st : State) (property_id : String) (start stop : Int) : Bool :=
  st.showings.any fun s =>
    if s.property_id ≠ property_id ∨ s.status = Status.declined then false
    else decide (start < s.scheduled_at + 60 ∧ stop > s.scheduled_at)

/-- The in-place mutation the approval step performs on a showing record
(shared by `approve_showing` and the auto-approval branch of
`showing_list`): store a fresh lockbox code, an expiry 75 minutes after
the scheduled start, and status `approved`. -/
def approveUpd (rng : Nat) (u : Showing) : Showing :=
  { u with lockbox_code := some (generate_lockbox_code rng),
           code_expires_at := some (u.scheduled_at + 75),
           status := .approved }

/-- The auto-approval step of `showing_list`: the stored showing is
re-fetched and approved only when it is still `pending`. -/
def autoApproveUpd (rng : Nat) (u : Showing) : Showing :=
  if u.status = .pending then approveUpd rng u else u

/-- The in-place mutation `decline_showing` performs. -/
def declineUpd (u : Showing) : Showing := { u with status := .declined }

/-- The in-place mutation `reschedule_showing` performs: the new start
is stored, and when the showing is `approved` the lockbox code is
regenerated with expiry 75 minutes after the new start. -/
def rescheduleUpd (rng : Nat) (start : Int) (u : Showing) : Showing :=
  if u.status = .approved then
    { u with scheduled_at := start,
             lockbox_code := some (generate_lockbox_code rng),
             code_expires_at := some (start + 75) }
  else { u with scheduled_at := start }

/-- Embeds the POST branch of `showing_list` (the requestShowing
operation): validates the property and client name, checks blocks and
conflicts for the one-hour window, stores a new `pending` showing, and —
when the property has `auto_approve_showings` — immediately runs the
approval step on the stored showing (lockbox code from the RNG draw,
expiry 75 minutes after the scheduled start, status `approved`).
ISO parsing of `scheduled_at` happens before this logic and is omitted;
`start` is the parsed instant. -/
def showing_list_post (st : State) (rng : Nat) (prop_id : String) (start : Int)
    (client_name : String) (showing_id : String) : Except ApiError State :=
  if prop_id = "" ∨ findKey Property.id st.properties prop_id = none then
    .error .invalidPropertyId
  else if client_name = "" then .error .missingFields
  else if is_time_blocked st prop_id start (start + 60) then .error .timeBlocked
  else if has_conflict st prop_id start (start + 60) then .error .schedulingConflict
    else
      let s : Showing :=
        { id := showing_id, property_id := prop_id, client_name := client_name,
          scheduled_at := start, status := .pending,
          lockbox_code := none, code_expires_at := none }
      let st1 : State := { st with showings := st.showings ++ [s] }
      match findKey Property.id st.properties prop_id with
      | some p =>
        if p.auto_approve_showings then
          .ok { st1 with
                showings := updateKey Showing.id st1.showings showing_id (autoApproveUpd rng) }
        else .ok st1
      | none => .ok st1

/-- Embeds `approve_showing`: 404 for an unknown id, 400 unless the
showing is `pending`, otherwise sets a fresh lockbox code, an expiry of
`scheduled_at + 75` minutes, and status `approved`. -/
def approve_showing (st : State) (rng : Nat) (showing_id : String) :
    Except ApiError State :=
  match findKey Showing.id st.showings showing_id with
  | none => .error .showingNotFound
  | some s =>
    if s.status ≠ .pending then .error .invalidState
    else .ok { st with
               showings := updateKey Showing.id st.showings showing_id (approveUpd rng) }

/-- Embeds `decline_showing`: 404 for an unknown id, 400 unless the
showing is `pending`, otherwise sets status `declined` (lockbox fields
untouched). -/
def decline_showing (st : State) (showing_id : String) : Except ApiError State :=
  match findKey Showing.id st.showings showing_id with
  | none => .error .showingNotFound
  | some s =>
    if s.status ≠ .pending then .error .invalidState
    else .ok { st with
               showings := updateKey Showing.id st.showings showing_id declineUpd }

/-- Embeds `reschedule_showing`: 404 for an unknown id, then checks
blocks and conflicts for the new one-hour window (the conflict scan runs
over all non-declined showings of the property, including the showing
being moved), updates `scheduled_at`, and — when the current status is
`approved` — regenerates the lockbox code and sets the expiry to the new
start + 75 minutes.  The status field itself is never written. -/
def reschedule_showing (st : State) (rng : Nat) (showing_id : String)
    (start : Int) : Except ApiError State :=
  match findKey Showing.id st.showings showing_id with
  | none => .error .showingNotFound
  | some s =>
    if is_time_blocked st s.property_id start (start + 60) then .error .timeBlocked
    else if has_conflict st s.property_id start (start + 60) then .error .schedulingConflict
    else .ok { st with
               showings := updateKey Showing.id st.showings showing_id (rescheduleUpd rng start) }

/-- Embeds `get_lockbox_code`: a pure read.  Returns the route's outcome
paired with the (unchanged) state; this mirrors the source route, which
performs no store write on any path.  The not-approved test mirrors
Python truthiness of `s["lockbox_code"]` (`None` and `""` are falsy);
the expiry test `s["code_expires_at"] and now > s["code_expires_at"]`
maps to the expiry being present and strictly before `now` (datetime
objects are always truthy).  On success the source returns the code and
`code_expires_at.isoformat()`; the raw expiry field is returned here. -/
def get_lockbox_code (st : State) (now : Int) (showing_id : String) :
    Except ApiError (String × Option Int) × State :=
  match findKey Showing.id st.showings showing_id with
  | none => (.error .showingNotFound, st)
  | some s =>
    if s.status ≠ .approved ∨ s.lockbox_code.getD "" = "" then
      (.error .notApproved, st)
    else
      match s.code_expires_at with
      | some e =>
        if now > e then (.error .codeExpired, st)
        else (.ok (s.lockbox_code.getD "", s.code_expires_at), st)
      | none => (.ok (s.lockbox_code.getD "", s.code_expires_at), st)

/-- Embeds `request_disclosure`: validates property, required fields and
that the package belongs to the property, then stores a new share whose
`approved` flag is the negation of the property's
`requires_disclosure_approval` policy flag and whose download list is
empty.  `share_id` is the fresh uuid chosen for the share. -/
def request_disclosure (st : State) (property_id pkg_id buyer_name share_id : String) :
    Except ApiError State :=
  if findKey Property.id st.properties property_id = none then .error .propertyNotFound
  else if pkg_id = "" ∨ buyer_name = "" then .error .missingFields
  else
    match findKey Package.id st.packages pkg_id with
    | none => .error .packageNotFound
    | some pkg =>
      if pkg.property_id ≠ property_id then .error .packageNotFound
      else
        let auto := match findKey Property.id st.properties property_id with
          | some p => !p.requires_disclosure_approval
          | none => true
        .ok { st with package_shares := st.package_shares ++
          [{ id := share_id, package_id := pkg_id, property_id := property_id,
             buyer_name := buyer_name, downloads := [], approved := auto }] }

/-- Embeds `create_share`: looks up the package, requires a buyer name,
and stores a new share with `approved` computed exactly as the source
does: `not properties.get(prop_id, \x7b\x7d).get("requires_disclosure_approval")`,
which is true when the property is missing (missing keys are falsy). -/
def create_share (st : State) (package_id buyer_name share_id : String) :
    Except ApiError State :=
  match findKey Package.id st.packages package_id with
  | none => .error .packageNotFound
  | some pkg =>
    if buyer_name = "" then .error .missingFields
    else
      let auto := match findKey Property.id st.properties pkg.property_id with
        | some p => !p.requires_disclosure_approval
        | none => true
      .ok { st with package_shares := st.package_shares ++
        [{ id := share_id, package_id := package_id, property_id := pkg.property_id,
           buyer_name := buyer_name, downloads := [], approved := auto }] }

/-- The in-place mutation `approve_share` performs. -/
def approveShareUpd (sh : Share) : Share := { sh with approved := true }

/-- The in-place mutation `share_download` performs: append one download
record `(filename, timestamp)`. -/
def recordDownloadUpd (safe_fn : String) (now : Int) (sh : Share) : Share :=
  { sh with downloads := sh.downloads ++ [(safe_fn, now)] }

/-- Embeds `approve_share`: 404 for an unknown share, an immediate 200
returning the share unchanged when it is already approved, otherwise
sets `approved` to true. -/
def approve_share (st : State) (share_id : String) : Except ApiError State :=
  match findKey Share.id st.package_shares share_id with
  | none => .error .shareNotFound
  | some share =>
    if share.approved then .ok st
    else .ok { st with
               package_shares := updateKey Share.id st.package_shares share_id approveShareUpd }

/-- Embeds `share_download`: resolves the share and its package, applies
the external `secure_filename` sanitizer, 404s when the sanitized name
is not among the package files, 403s when the share is not approved,
404s when the file bytes are absent from the disclosures store, and
otherwise appends one download record `(filename, now)` to the share and
returns the file data. -/
def share_download (sanitize : String → String) (st : State) (now : Int)
    (share_id filename : String) : Except ApiError (State × String) :=
  match findKey Share.id st.package_shares share_id with
  | none => .error .shareNotFound
  | some share =>
    match findKey Package.id st.packages share.package_id with
    | none => .error .packageNotFound
    | some pkg =>
      if sanitize filename ∈ pkg.files then
        if share.approved then
          match discGet st.disclosures pkg.property_id (sanitize filename) with
          | none => .error .fileNotFound
          | some data =>
            .ok ({ st with
                   package_shares := updateKey Share.id st.package_shares share_id
                     (recordDownloadUpd (sanitize filename) now) }, data)
        else .error .downloadNotApproved
      else .error .fileNotFoundInPackage

namespace app

/-- A showing record of the simple `src/app.py` variant (no lockbox
fields; `created_at` feeds display only and is omitted). -/
structure Showing where
  id : String
  property_id : String
  scheduled_at : Int
  client_name : String
  status : Status
deriving DecidableEq

/-- Embeds `src/app.py` `add_showing` (POST): refuses when no property
exists or a required field is empty, then appends a new `pending`
showing.  No block or conflict check of any kind is performed.
`properties` is the list of existing property ids; ISO parsing is
omitted (`scheduled_at` is the parsed instant). -/
def add_showing (properties : List String) (showings : List Showing)
    (property_id : String) (scheduled_at : Int) (client_name : String)
    (showing_id : String) : Option (List Showing) :=
  if properties = [] then none
  else if property_id = "" ∨ client_name = "" then none
  else some (showings ++
    [{ id := showing_id, property_id := property_id,
       scheduled_at := scheduled_at, client_name := client_name,
       status := .pending }])

/-- Embeds `src/app.py` `approve_showing`: sets the status of the first
showing with the given id to `approved` unconditionally — the current
status is not inspected. -/
def approve_showing : List Showing → String → List Showing
  | [], _ => []
  | s :: rest, sid =>
    if s.id = sid then { s with status := .approved } :: rest
    else s :: approve_showing rest sid

/-- Embeds `src/app.py` `decline_showing`: sets the status of the first
showing with the given id to `declined` unconditionally — the current
status is not inspected. -/
def decline_showing : List Showing → String → List Showing
  | [], _ => []
  | s :: rest, sid =>
    if s.id = sid then { s with status := .declined } :: rest
    else s :: decline_showing rest sid

end app

/-- Two one-hour windows starting at `a` and `b` overlap under the
strict half-open convention used by `has_conflict`. -/
def windows_overlap (a b : Int) : Prop := a < b + 60 ∧ b < a + 60

instance windows_overlap_dec (a b : Int) : Decidable (windows_overlap a b) := by
  unfold windows_overlap; infer_instance

/-- Two showings are compatible when, whenever they sit on the same
property and neither is declined, their one-hour windows do not
overlap. -/
def compatible (a b : Showing) : Prop :=
  a.property_id = b.property_id → a.status ≠ Status.declined →
    b.status ≠ Status.declined → ¬ windows_overlap a.scheduled_at b.scheduled_at

instance compatible_dec (a b : Showing) : Decidable (compatible a b) := by
  unfold compatible; infer_instance

/-- The no-double-booking invariant: all pairs of distinct showings in
the store are compatible. -/
def no_double_booking (l : List Showing) : Prop := l.Pairwise compatible

/-- The same invariant for the simple `src/app.py` variant's store. -/
def app.no_double_booking (l : List app.Showing) : Prop :=
  l.Pairwise fun a b =>
    a.property_id = b.property_id → a.status ≠ Status.declined →
      b.status ≠ Status.declined → ¬ windows_overlap a.scheduled_at b.scheduled_at

section KeyLemmas

variable {α : Type} (key : α → String)

lemma findKey_mem {l : List α} {k : String} {x : α}
    (h : findKey key l k = some x) : x ∈ l ∧ key x = k := by
  induction l with
  | nil => simp [findKey] at h
  | cons y ys ih =>
    rw [findKey] at h
    by_cases hy : key y = k
    · simp [hy] at h; subst h; exact ⟨List.mem_cons_self _ _, hy⟩
    · simp [hy] at h
      rcases ih h with ⟨h1, h2⟩
      exact ⟨List.mem_cons_of_mem _ h1, h2⟩

lemma findKey_append_left {l₁ : List α} (l₂ : List α) {k : String} {x : α}
    (h : findKey key l₁ k = some x) : findKey key (l₁ ++ l₂) k = some x := by
  induction l₁ with
  | nil => simp [findKey] at h
  | cons y ys ih =>
    rw [findKey] at h
    rw [List.cons_append, findKey]
    by_cases hy : key y = k
    · simpa [hy] using h
    · simp only [hy, if_false] at h ⊢; exact ih h

lemma findKey_append_right {l₁ : List α} (l₂ : List α) {k : String}
    (h : findKey key l₁ k = none) : findKey key (l₁ ++ l₂) k = findKey key l₂ k := by
  induction l₁ with
  | nil => simp
  | cons y ys ih =>
    rw [findKey] at h
    by_cases hy : key y = k
    · simp [hy] at h
    · rw [List.cons_append, findKey]
      simp only [hy, if_false]
      simp [hy] at h
      exact ih h

lemma findKey_updateKey_self {l : List α} {k : String} (f : α → α)
    (hf : ∀ x, key (f x) = key x) :
    findKey key (updateKey key l k f) k = (findKey key l k).map f := by
  induction l with
  | nil => simp [findKey, updateKey]
  | cons y ys ih =>
    rw [updateKey]
    by_cases hy : key y = k
    · rw [if_pos hy, findKey, findKey, if_pos hy]
      rw [if_pos (by rw [hf]; exact hy)]
      rfl
    · rw [if_neg hy, findKey, findKey, if_neg hy, if_neg hy]
      exact ih

lemma findKey_updateKey_ne {l : List α} {k k' : String} (f : α → α)
    (hf : ∀ x, key (f x) = key x) (hne : k' ≠ k) :
    findKey key (updateKey key l k f) k' = findKey key l k' := by
  induction l with
  | nil => simp [updateKey]
  | cons y ys ih =>
    rw [updateKey]
    by_cases hy : key y = k
    · rw [if_pos hy, findKey, findKey]
      rw [if_neg (by rw [hf, hy]; exact fun h => hne h.symm)]
      rw [if_neg (by rw [hy]; exact fun h => hne h.symm)]
    · rw [if_neg hy, findKey, findKey]
      by_cases hy' : key y = k'
      · simp [hy']
      · simp only [hy', if_false]
        exact ih

lemma mem_updateKey {l : List α} {k : String} {f : α → α} {b : α}
    (hb : b ∈ updateKey key l k f) :
    b ∈ l ∨ ∃ y, findKey key l k = some y ∧ b = f y := by
  induction l with
  | nil => simp [updateKey] at hb
  | cons x xs ih =>
    rw [updateKey] at hb
    by_cases hx : key x = k
    · rw [if_pos hx] at hb
      rcases List.mem_cons.mp hb with hb | hb
      · exact Or.inr ⟨x, by rw [findKey, if_pos hx], hb⟩
      · exact Or.inl (List.mem_cons_of_mem _ hb)
    · rw [if_neg hx] at hb
      rcases List.mem_cons.mp hb with hb | hb
      · exact Or.inl (hb ▸ List.mem_cons_self _ _)
      · rcases ih hb with hb | ⟨y, hy, hby⟩
        · exact Or.inl (List.mem_cons_of_mem _ hb)
        · exact Or.inr ⟨y, by rw [findKey, if_neg hx]; exact hy, hby⟩

lemma pairwise_updateKey {R : α → α → Prop} {l : List α} {k : String} {f : α → α}
    (hp : l.Pairwise R)
    (h : ∀ x, findKey key l k = some x → ∀ b ∈ l,
      (R x b → R (f x) b) ∧ (R b x → R b (f x))) :
    (updateKey key l k f).Pairwise R := by
  induction l with
  | nil => exact .nil
  | cons x xs ih =>
    rw [updateKey]
    rcases List.pairwise_cons.mp hp with ⟨hx, hxs⟩
    by_cases hxk : key x = k
    · rw [if_pos hxk]
      refine List.pairwise_cons.mpr ⟨?_, hxs⟩
      intro b hb
      have hfind : findKey key (x :: xs) k = some x := by rw [findKey, if_pos hxk]
      exact (h x hfind b (List.mem_cons_of_mem _ hb)).1 (hx b hb)
    · rw [if_neg hxk]
      refine List.pairwise_cons.mpr ⟨?_, ?_⟩
      · intro b hb
        rcases mem_updateKey key hb with hb | ⟨y, hy, hby⟩
        · exact hx b hb
        · have hfind : findKey key (x :: xs) k = some y := by
            rw [findKey, if_neg hxk]; exact hy
          have hymem : y ∈ xs := (findKey_mem key hy).1
          subst hby
          exact (h y hfind x (List.mem_cons_self _ _)).2 (hx y hymem)
      · refine ih hxs ?_
        intro y hy b hb
        have hfind : findKey key (x :: xs) k = some y := by
          rw [findKey, if_neg hxk]; exact hy
        exact h y hfind b (List.mem_cons_of_mem _ hb)

lemma pairwise_append_singleton {R : α → α → Prop} {l : List α} {x : α}
    (hp : l.Pairwise R) (hx : ∀ a ∈ l, R a x) : (l ++ [x]).Pairwise R := by
  rw [List.pairwise_append]
  exact ⟨hp, List.pairwise_singleton _ _, fun a ha b hb => by
    rcases List.mem_singleton.mp hb with rfl; exact hx a ha⟩

end KeyLemmas

/-- Unfolds `has_conflict st pid start stop = false` into the pointwise
statement over the showings store. -/
lemma has_conflict_eq_false {st : State} {pid : String} {start stop : Int}
    (h : has_conflict st pid start stop = false) :
    ∀ s ∈ st.showings, s.property_id = pid → s.status ≠ Status.declined →
      ¬(start < s.scheduled_at + 60 ∧ stop > s.scheduled_at) := by
  intro s hs hpid hnd hov
  rw [has_conflict, List.any_eq_false] at h
  have hthis := h s hs
  rw [if_neg (not_or.mpr ⟨fun hne => hne hpid, hnd⟩)] at hthis
  simp only [decide_eq_true_eq] at hthis
  exact hthis hov

instance no_double_booking_dec (l : List Showing) : Decidable (no_double_booking l) := by
  unfold no_double_booking; infer_instance

instance app_no_double_booking_dec (l : List app.Showing) :
    Decidable (app.no_double_booking l) := by
  unfold app.no_double_booking; infer_instance

lemma approveUpd_id (rng : Nat) (u : Showing) : (approveUpd rng u).id = u.id := rfl

lemma autoApproveUpd_id (rng : Nat) (u : Showing) : (autoApproveUpd rng u).id = u.id := by
  unfold autoApproveUpd; split <;> rfl

lemma declineUpd_id (u : Showing) : (declineUpd u).id = u.id := rfl

lemma rescheduleUpd_id (rng : Nat) (start : Int) (u : Showing) :
    (rescheduleUpd rng start u).id = u.id := by
  unfold rescheduleUpd; split <;> rfl

lemma rescheduleUpd_property_id (rng : Nat) (start : Int) (u : Showing) :
    (rescheduleUpd rng start u).property_id = u.property_id := by
  unfold rescheduleUpd; split <;> rfl

lemma rescheduleUpd_status (rng : Nat) (start : Int) (u : Showing) :
    (rescheduleUpd rng start u).status = u.status := by
  unfold rescheduleUpd; split <;> rfl

lemma rescheduleUpd_scheduled_at (rng : Nat) (start : Int) (u : Showing) :
    (rescheduleUpd rng start u).scheduled_at = start := by
  unfold rescheduleUpd; split <;> rfl

lemma approveShareUpd_id (sh : Share) : (approveShareUpd sh).id = sh.id := rfl

lemma recordDownloadUpd_id (safe_fn : String) (now : Int) (sh : Share) :
    (recordDownloadUpd safe_fn now sh).id = sh.id := rfl

lemma approve_showing_ok {st : State} {rng : Nat} {sid : String} {st' : State}
    (h : approve_showing st rng sid = .ok st') :
    ∃ s, findKey Showing.id st.showings sid = some s ∧ s.status = .pending ∧
      st' = { st with showings := updateKey Showing.id st.showings sid (approveUpd rng) } := by
  unfold approve_showing at h
  split at h
  · cases h
  · rename_i s hf
    split at h
    · cases h
    · rename_i hs
      cases h
      exact ⟨s, hf, by simpa using hs, rfl⟩

lemma decline_showing_ok {st : State} {sid : String} {st' : State}
    (h : decline_showing st sid = .ok st') :
    ∃ s, findKey Showing.id st.showings sid = some s ∧ s.status = .pending ∧
      st' = { st with showings := updateKey Showing.id st.showings sid declineUpd } := by
  unfold decline_showing at h
  split at h
  · cases h
  · rename_i s hf
    split at h
    · cases h
    · rename_i hs
      cases h
      exact ⟨s, hf, by simpa using hs, rfl⟩

lemma reschedule_showing_ok {st : State} {rng : Nat} {sid : String} {start : Int} {st' : State}
    (h : reschedule_showing st rng sid start = .ok st') :
    ∃ s, findKey Showing.id st.showings sid = some s ∧
      is_time_blocked st s.property_id start (start + 60) = false ∧
      has_conflict st s.property_id start (start + 60) = false ∧
      st' = { st with showings := updateKey Showing.id st.showings sid (rescheduleUpd rng start) } := by
  unfold reschedule_showing at h
  split at h
  · cases h
  · rename_i s hf
    split at h
    · cases h
    · rename_i hb
      split at h
      · cases h
      · rename_i hc
        cases h
        exact ⟨s, hf, Bool.not_eq_true _ ▸ hb, Bool.not_eq_true _ ▸ hc, rfl⟩

/-- The showing record freshly stored by the POST branch of
`showing_list` before any auto-approval. -/
def newShowing (sid pid cn : String) (start : Int) : Showing :=
  { id := sid, property_id := pid, client_name := cn, scheduled_at := start,
    status := .pending, lockbox_code := none, code_expires_at := none }

lemma showing_list_post_ok {st : State} {rng : Nat} {pid : String} {start : Int}
    {cn sid : String} {st' : State}
    (h : showing_list_post st rng pid start cn sid = .ok st') :
    ∃ p, findKey Property.id st.properties pid = some p ∧
      is_time_blocked st pid start (start + 60) = false ∧
      has_conflict st pid start (start + 60) = false ∧
      ((p.auto_approve_showings = true ∧
        st' = { st with showings := updateKey Showing.id (st.showings ++ [newShowing sid pid cn start]) sid (autoApproveUpd rng) }) ∨
       (p.auto_approve_showings = false ∧
        st' = { st with showings := st.showings ++ [newShowing sid pid cn start] })) := by
  unfold showing_list_post at h
  split at h
  · cases h
  · rename_i h1
    split at h
    · cases h
    · rename_i h2
      split at h
      · cases h
      · rename_i hb
        split at h
        · cases h
        · rename_i hc
          split at h
          · rename_i p hp
            split at h
            · rename_i ha
              cases h
              exact ⟨p, hp, Bool.not_eq_true _ ▸ hb, Bool.not_eq_true _ ▸ hc,
                Or.inl ⟨ha, rfl⟩⟩
            · rename_i ha
              cases h
              exact ⟨p, hp, Bool.not_eq_true _ ▸ hb, Bool.not_eq_true _ ▸ hc,
                Or.inr ⟨Bool.not_eq_true _ ▸ ha, rfl⟩⟩
          · rename_i hp
            exact absurd (Or.inr hp) h1

lemma request_disclosure_ok {st : State} {pid pkgid buyer shid : String} {st' : State}
    (h : request_disclosure st pid pkgid buyer shid = .ok st') :
    ∃ pkg p, findKey Package.id st.packages pkgid = some pkg ∧
      pkg.property_id = pid ∧
      findKey Property.id st.properties pid = some p ∧
      st' = { st with package_shares := st.package_shares ++
        [{ id := shid, package_id := pkgid, property_id := pid, buyer_name := buyer,
           downloads := [], approved := !p.requires_disclosure_approval }] } := by
  unfold request_disclosure at h
  split at h
  · cases h
  · rename_i h1
    split at h
    · cases h
    · split at h
      · cases h
      · rename_i pkg hpkg
        split at h
        · cases h
        · rename_i hprop
          cases hp : findKey Property.id st.properties pid with
          | none => exact absurd hp h1
          | some p =>
            rw [hp] at h
            cases h
            exact ⟨pkg, p, hpkg, by simpa using hprop, rfl, rfl⟩

lemma create_share_ok {st : State} {pkgid buyer shid : String} {st' : State}
    (h : create_share st pkgid buyer shid = .ok st') :
    ∃ pkg, findKey Package.id st.packages pkgid = some pkg ∧
      st' = { st with package_shares := st.package_shares ++
        [{ id := shid, package_id := pkgid, property_id := pkg.property_id,
           buyer_name := buyer, downloads := [],
           approved := match findKey Property.id st.properties pkg.property_id with
             | some p => !p.requires_disclosure_approval
             | none => true }] } := by
  unfold create_share at h
  split at h
  · cases h
  · rename_i pkg hpkg
    split at h
    · cases h
    · cases h
      exact ⟨pkg, hpkg, rfl⟩

lemma approve_share_ok {st : State} {shid : String} {st' : State}
    (h : approve_share st shid = .ok st') :
    ∃ sh, findKey Share.id st.package_shares shid = some sh ∧
      ((sh.approved = true ∧ st' = st) ∨
       (sh.approved = false ∧
        st' = { st with package_shares := updateKey Share.id st.package_shares shid approveShareUpd })) := by
  unfold approve_share at h
  split at h
  · cases h
  · rename_i sh hsh
    split at h
    · rename_i ha
      cases h
      exact ⟨sh, hsh, Or.inl ⟨ha, rfl⟩⟩
    · rename_i ha
      cases h
      exact ⟨sh, hsh, Or.inr ⟨Bool.not_eq_true _ ▸ ha, rfl⟩⟩

lemma share_download_ok {sanitize : String → String} {st : State} {now : Int}
    {shid fn : String} {st' : State} {data : String}
    (h : share_download sanitize st now shid fn = .ok (st', data)) :
    ∃ sh pkg, findKey Share.id st.package_shares shid = some sh ∧
      findKey Package.id st.packages sh.package_id = some pkg ∧
      sanitize fn ∈ pkg.files ∧ sh.approved = true ∧
      discGet st.disclosures pkg.property_id (sanitize fn) = some data ∧
      st' = { st with package_shares := updateKey Share.id st.package_shares shid (recordDownloadUpd (sanitize fn) now) } := by
  unfold share_download at h
  split at h
  · cases h
  · rename_i sh hsh
    split at h
    · cases h
    · rename_i pkg hpkg
      split at h
      · rename_i hmem
        split at h
        · rename_i happ
          split at h
          · cases h
          · rename_i d hd
            cases h
            exact ⟨sh, pkg, hsh, hpkg, hmem, happ, hd, rfl⟩
        · cases h
      · cases h

lemma digitChar_isDigit {d : Nat} (h : d < 10) : (Nat.digitChar d).isDigit = true := by
  interval_cases d <;> decide

lemma generate_lockbox_code_length (n : Nat) : (generate_lockbox_code n).length = 6 := rfl

lemma generate_lockbox_code_digits (n : Nat) :
    ∀ c ∈ (generate_lockbox_code n).toList, c.isDigit = true := by
  intro c hc
  have hls : (generate_lockbox_code n).toList =
      [Nat.digitChar (n % 1000000 / 100000 % 10), Nat.digitChar (n % 1000000 / 10000 % 10),
       Nat.digitChar (n % 1000000 / 1000 % 10), Nat.digitChar (n % 1000000 / 100 % 10),
       Nat.digitChar (n % 1000000 / 10 % 10), Nat.digitChar (n % 1000000 % 10)] := rfl
  rw [hls] at hc
  have h10 : (0 : Nat) < 10 := by norm_num
  simp only [List.mem_cons, List.not_mem_nil, or_false] at hc
  rcases hc with rfl | rfl | rfl | rfl | rfl | rfl
  all_goals exact digitChar_isDigit (Nat.mod_lt _ h10)

lemma compatible_symm {a b : Showing} (h : compatible a b) : compatible b a := by
  intro hpid hnd1 hnd2 hov
  exact h hpid.symm hnd2 hnd1 ⟨hov.2, hov.1⟩

lemma compatible_approveUpd_left {rng : Nat} {x b : Showing}
    (hx : x.status ≠ .declined) (h : compatible x b) : compatible (approveUpd rng x) b := by
  intro hpid hnd1 hnd2
  exact h hpid hx hnd2

lemma compatible_approveUpd_right {rng : Nat} {x b : Showing}
    (hx : x.status ≠ .declined) (h : compatible b x) : compatible b (approveUpd rng x) := by
  intro hpid hnd1 hnd2
  exact h hpid hnd1 hx

lemma compatible_autoApproveUpd_left {rng : Nat} {x b : Showing}
    (h : compatible x b) : compatible (autoApproveUpd rng x) b := by
  unfold autoApproveUpd
  split
  · rename_i hx
    exact compatible_approveUpd_left (by rw [hx]; exact fun hd => Status.noConfusion hd) h
  · exact h

lemma compatible_autoApproveUpd_right {rng : Nat} {x b : Showing}
    (h : compatible b x) : compatible b (autoApproveUpd rng x) := by
  unfold autoApproveUpd
  split
  · rename_i hx
    exact compatible_approveUpd_right (by rw [hx]; exact fun hd => Status.noConfusion hd) h
  · exact h

lemma compatible_declineUpd_left {x b : Showing} : compatible (declineUpd x) b := by
  intro _ hnd1 _
  exact absurd rfl hnd1

lemma compatible_declineUpd_right {x b : Showing} : compatible b (declineUpd x) := by
  intro _ _ hnd2
  exact absurd rfl hnd2

/-- C1 (amended): in `extended_app.py`, the no-double-booking invariant
— no two distinct non-declined showings of the same property have
overlapping one-hour windows — is preserved by every state-changing
showing operation: request (`showing_list` POST, including its
auto-approval continuation), `approve_showing`, `decline_showing` and
`reschedule_showing`.  (The claim as frozen also covers `src/app.py`
`add_showing`, which performs no conflict check; see the
counterexample.) -/
theorem no_double_booking_preserved (st : State) (hinv : no_double_booking st.showings) :
    (∀ rng pid start cn sid st', showing_list_post st rng pid start cn sid = .ok st' →
       no_double_booking st'.showings) ∧
    (∀ rng sid st', approve_showing st rng sid = .ok st' → no_double_booking st'.showings) ∧
    (∀ sid st', decline_showing st sid = .ok st' → no_double_booking st'.showings) ∧
    (∀ rng sid start st', reschedule_showing st rng sid start = .ok st' →
       no_double_booking st'.showings) := by
  refine ⟨?_, ?_, ?_, ?_⟩
  · intro rng pid start cn sid st' h
    rcases showing_list_post_ok h with ⟨p, hp, hb, hc, hcase⟩
    have hnew : no_double_booking (st.showings ++ [newShowing sid pid cn start]) := by
      refine pairwise_append_singleton hinv ?_
      intro a ha hpid hnd1 hnd2 hov
      exact has_conflict_eq_false hc a ha hpid hnd1 ⟨hov.2, hov.1⟩
    rcases hcase with ⟨hauto, rfl⟩ | ⟨hauto, rfl⟩
    · exact pairwise_updateKey (Showing.id) hnew fun x hx b hb =>
        ⟨compatible_autoApproveUpd_left, compatible_autoApproveUpd_right⟩
    · exact hnew
  · intro rng sid st' h
    rcases approve_showing_ok h with ⟨s, hf, hs, rfl⟩
    refine pairwise_updateKey (Showing.id) hinv fun x hx b hb => ?_
    rw [hf] at hx
    cases hx
    have hnd : s.status ≠ .declined := by rw [hs]; exact fun hd => Status.noConfusion hd
    exact ⟨compatible_approveUpd_left hnd, compatible_approveUpd_right hnd⟩
  · intro sid st' h
    rcases decline_showing_ok h with ⟨s, hf, hs, rfl⟩
    exact pairwise_updateKey (Showing.id) hinv fun x hx b hb =>
      ⟨fun _ => compatible_declineUpd_left, fun _ => compatible_declineUpd_right⟩
  · intro rng sid start st' h
    rcases reschedule_showing_ok h with ⟨s, hf, hb, hc, rfl⟩
    refine pairwise_updateKey (Showing.id) hinv fun x hx b hb2 => ?_
    rw [hf] at hx
    cases hx
    constructor
    · intro _ hpid hnd1 hnd2 hov
      rw [rescheduleUpd_property_id] at hpid
      rw [rescheduleUpd_scheduled_at] at hov
      exact has_conflict_eq_false hc b hb2 hpid.symm hnd2 ⟨hov.1, hov.2⟩
    · intro _ hpid hnd1 hnd2 hov
      rw [rescheduleUpd_property_id] at hpid
      rw [rescheduleUpd_scheduled_at] at hov
      exact has_conflict_eq_false hc b hb2 hpid hnd1 ⟨hov.2, hov.1⟩

/-- C1 witness: the preservation theorem applied to a concrete state
with one pending showing, via the decline operation. -/
theorem no_double_booking_preserved_witness :
    no_double_booking [{ id := "s1", property_id := "p1", client_name := "alice",
                         scheduled_at := 0, status := .declined, lockbox_code := none,
                         code_expires_at := none }] :=
  (no_double_booking_preserved
    { properties := [{ id := "p1", auto_approve_showings := false,
                       requires_disclosure_approval := false }],
      showings := [{ id := "s1", property_id := "p1", client_name := "alice",
                     scheduled_at := 0, status := .pending, lockbox_code := none,
                     code_expires_at := none }],
      blocked_times := [], packages := [], package_shares := [], disclosures := [] }
    (by decide)).2.2.1 "s1"
    { properties := [{ id := "p1", auto_approve_showings := false,
                       requires_disclosure_approval := false }],
      showings := [{ id := "s1", property_id := "p1", client_name := "alice",
                     scheduled_at := 0, status := .declined, lockbox_code := none,
                     code_expires_at := none }],
      blocked_times := [], packages := [], package_shares := [], disclosures := [] }
    (by rfl)

/-- C1 counterexample: the claim quantifies over every operation that
creates showings and its sources include `src/app.py` `add_showing`,
which performs no block or conflict check: starting from a store
satisfying the invariant with one pending showing on property p1 at
time 0, `add_showing` accepts a second showing on p1 at time 0 and the
resulting store violates the invariant. -/
theorem app_add_showing_breaks_no_double_booking :
    app.no_double_booking [{ id := "s1", property_id := "p1", scheduled_at := 0,
                             client_name := "alice", status := .pending }] ∧
    app.add_showing ["p1"]
      [{ id := "s1", property_id := "p1", scheduled_at := 0,
         client_name := "alice", status := .pending }] "p1" 0 "bob" "s2" =
      some [{ id := "s1", property_id := "p1", scheduled_at := 0,
              client_name := "alice", status := .pending },
            { id := "s2", property_id := "p1", scheduled_at := 0,
              client_name := "bob", status := .pending }] ∧
    ¬ app.no_double_booking
        [{ id := "s1", property_id := "p1", scheduled_at := 0,
           client_name := "alice", status := .pending },
         { id := "s2", property_id := "p1", scheduled_at := 0,
           client_name := "bob", status := .pending }] :=
  ⟨by decide, by rfl, by decide⟩

/-- C2: the code fails the claim — `reschedule_showing` runs
`has_conflict` over all non-declined showings including the showing
being moved, so moving the only showing of p1 (pending, scheduled at
minute 100) to minute 130, whose window overlaps only the showing's own
prior `[100, 160)` window and no blocked range, is rejected with the
scheduling-conflict error instead of succeeding. -/
theorem reschedule_rejects_own_window_overlap :
    is_time_blocked
      { properties := [{ id := "p1", auto_approve_showings := false,
                         requires_disclosure_approval := false }],
        showings := [{ id := "s1", property_id := "p1", client_name := "alice",
                       scheduled_at := 100, status := .pending, lockbox_code := none,
                       code_expires_at := none }],
        blocked_times := [], packages := [], package_shares := [], disclosures := [] }
      "p1" 130 190 = false ∧
    reschedule_showing
      { properties := [{ id := "p1", auto_approve_showings := false,
                         requires_disclosure_approval := false }],
        showings := [{ id := "s1", property_id := "p1", client_name := "alice",
                       scheduled_at := 100, status := .pending, lockbox_code := none,
                       code_expires_at := none }],
        blocked_times := [], packages := [], package_shares := [], disclosures := [] }
      0 "s1" 130 = .error .schedulingConflict :=
  ⟨by rfl, by rfl⟩

/-- The status evolution from `s` to `s'` permitted by the
terminal-declined discipline: a declined showing stays declined, and a
showing becomes declined only when it was pending (or already
declined). -/
def declined_discipline (s s' : Showing) : Prop :=
  (s.status = .declined → s'.status = .declined) ∧
  (s'.status = .declined → s.status = .pending ∨ s.status = .declined)

instance declined_discipline_dec (s s' : Showing) : Decidable (declined_discipline s s') := by
  unfold declined_discipline; infer_instance

lemma declined_discipline_refl (s : Showing) : declined_discipline s s :=
  ⟨fun h => h, fun h => Or.inr h⟩

lemma declined_discipline_approveUpd (rng : Nat) {u : Showing} (hu : u.status = .pending) :
    declined_discipline u (approveUpd rng u) :=
  And.intro (fun h => by rw [hu] at h; cases h) (fun h => nomatch h)

lemma declined_discipline_autoApproveUpd (rng : Nat) (u : Showing) :
    declined_discipline u (autoApproveUpd rng u) := by
  unfold autoApproveUpd
  split
  · rename_i hu
    exact declined_discipline_approveUpd rng hu
  · exact declined_discipline_refl u

lemma declined_discipline_declineUpd {u : Showing} (hu : u.status = .pending) :
    declined_discipline u (declineUpd u) :=
  ⟨fun _ => rfl, fun _ => Or.inl hu⟩

lemma declined_discipline_rescheduleUpd (rng : Nat) (start : Int) (u : Showing) :
    declined_discipline u (rescheduleUpd rng start u) :=
  ⟨fun h => by rw [rescheduleUpd_status]; exact h,
   fun h => by rw [rescheduleUpd_status] at h; exact Or.inr h⟩

lemma discipline_updateKey {l : List Showing} {k : String} {f : Showing → Showing}
    (hid : ∀ u, (f u).id = u.id)
    (hdisc : ∀ u, findKey Showing.id l k = some u → declined_discipline u (f u)) :
    ∀ sid s s', findKey Showing.id l sid = some s →
      findKey Showing.id (updateKey Showing.id l k f) sid = some s' →
      declined_discipline s s' := by
  intro sid s s' hs hs'
  by_cases hk : sid = k
  · subst hk
    rw [findKey_updateKey_self Showing.id f hid, hs] at hs'
    cases hs'
    exact hdisc s hs
  · rw [findKey_updateKey_ne Showing.id f hid hk, hs] at hs'
    cases hs'
    exact declined_discipline_refl s

lemma findKey_showings_append {l : List Showing} {x : Showing} {sid : String}
    {s s' : Showing} (hs : findKey Showing.id l sid = some s)
    (hs' : findKey Showing.id (l ++ [x]) sid = some s') : s' = s := by
  rw [findKey_append_left Showing.id _ hs] at hs'
  cases hs'
  rfl

/-- C3 (amended): in `extended_app.py`, `declined` is terminal and is
entered only from `pending`: across each showing operation (request,
approve, decline, reschedule), every showing that exists before and
after satisfies the terminal-declined discipline — approve and decline
gate on the current status being `pending`, and reschedule never writes
the status field.  (The claim as frozen also covers `src/app.py`, whose
approve/decline routes set the status unconditionally; see the
counterexample.) -/
theorem declined_terminal_extended (st : State) :
    (∀ rng pid start cn nid st', showing_list_post st rng pid start cn nid = .ok st' →
       ∀ sid s s', findKey Showing.id st.showings sid = some s →
         findKey Showing.id st'.showings sid = some s' → declined_discipline s s') ∧
    (∀ rng aid st', approve_showing st rng aid = .ok st' →
       ∀ sid s s', findKey Showing.id st.showings sid = some s →
         findKey Showing.id st'.showings sid = some s' → declined_discipline s s') ∧
    (∀ aid st', decline_showing st aid = .ok st' →
       ∀ sid s s', findKey Showing.id st.showings sid = some s →
         findKey Showing.id st'.showings sid = some s' → declined_discipline s s') ∧
    (∀ rng aid start st', reschedule_showing st rng aid start = .ok st' →
       ∀ sid s s', findKey Showing.id st.showings sid = some s →
         findKey Showing.id st'.showings sid = some s' → declined_discipline s s') := by
  refine ⟨?_, ?_, ?_, ?_⟩
  · intro rng pid start cn nid st' h sid s s' hs hs'
    rcases showing_list_post_ok h with ⟨p, hp, hb, hc, hcase⟩
    rcases hcase with ⟨hauto, rfl⟩ | ⟨hauto, rfl⟩
    · exact discipline_updateKey (autoApproveUpd_id rng)
        (fun u _ => declined_discipline_autoApproveUpd rng u) sid s s'
        (findKey_append_left Showing.id _ hs) hs'
    · cases findKey_showings_append hs hs'
      exact declined_discipline_refl s
  · intro rng aid st' h sid s s' hs hs'
    rcases approve_showing_ok h with ⟨s0, hf, hs0, rfl⟩
    refine discipline_updateKey (approveUpd_id rng) ?_ sid s s' hs hs'
    intro u hu
    rw [hf] at hu
    cases hu
    exact declined_discipline_approveUpd rng hs0
  · intro aid st' h sid s s' hs hs'
    rcases decline_showing_ok h with ⟨s0, hf, hs0, rfl⟩
    refine discipline_updateKey declineUpd_id ?_ sid s s' hs hs'
    intro u hu
    rw [hf] at hu
    cases hu
    exact declined_discipline_declineUpd hs0
  · intro rng aid start st' h sid s s' hs hs'
    rcases reschedule_showing_ok h with ⟨s0, hf, hb, hc, rfl⟩
    exact discipline_updateKey (rescheduleUpd_id rng start)
      (fun u _ => declined_discipline_rescheduleUpd rng start u) sid s s' hs hs'

/-- C3 witness: the discipline theorem applied at a concrete state via
the decline operation. -/
theorem declined_terminal_extended_witness :
    declined_discipline
      { id := "s1", property_id := "p1", client_name := "alice", scheduled_at := 0,
        status := .pending, lockbox_code := none, code_expires_at := none }
      { id := "s1", property_id := "p1", client_name := "alice", scheduled_at := 0,
        status := .declined, lockbox_code := none, code_expires_at := none } :=
  (declined_terminal_extended
    { properties := [{ id := "p1", auto_approve_showings := false,
                       requires_disclosure_approval := false }],
      showings := [{ id := "s1", property_id := "p1", client_name := "alice",
                     scheduled_at := 0, status := .pending, lockbox_code := none,
                     code_expires_at := none }],
      blocked_times := [], packages := [], package_shares := [],
      disclosures := [] }).2.2.1 "s1"
    { properties := [{ id := "p1", auto_approve_showings := false,
                       requires_disclosure_approval := false }],
      showings := [{ id := "s1", property_id := "p1", client_name := "alice",
                     scheduled_at := 0, status := .declined, lockbox_code := none,
                     code_expires_at := none }],
      blocked_times := [], packages := [], package_shares := [],
      disclosures := [] }
    (by rfl) "s1" _ _ (by rfl) (by rfl)

/-- C3 counterexample: the claim's sources include the `src/app.py`
routes, which set the status unconditionally: approving a declined
showing moves it out of `declined` (terminality violated), and
declining an approved showing reaches `declined` from `approved`. -/
theorem app_routes_break_declined_terminality :
    app.approve_showing
      [{ id := "s1", property_id := "p1", scheduled_at := 0,
         client_name := "alice", status := .declined }] "s1" =
      [{ id := "s1", property_id := "p1", scheduled_at := 0,
         client_name := "alice", status := .approved }] ∧
    app.decline_showing
      [{ id := "s2", property_id := "p1", scheduled_at := 0,
         client_name := "bob", status := .approved }] "s2" =
      [{ id := "s2", property_id := "p1", scheduled_at := 0,
         client_name := "bob", status := .declined }] :=
  ⟨rfl, rfl⟩

lemma approve_showing_eq_ok {st : State} {rng : Nat} {sid : String} {s : Showing}
    (hf : findKey Showing.id st.showings sid = some s) (hp : s.status = .pending) :
    approve_showing st rng sid =
      .ok { st with showings := updateKey Showing.id st.showings sid (approveUpd rng) } := by
  unfold approve_showing
  rw [hf]
  dsimp only
  rw [if_neg (not_not_intro hp)]

lemma approve_showing_eq_error {st : State} {rng : Nat} {sid : String} {s : Showing}
    (hf : findKey Showing.id st.showings sid = some s) (hp : s.status ≠ .pending) :
    approve_showing st rng sid = .error .invalidState := by
  unfold approve_showing
  rw [hf]
  dsimp only
  rw [if_pos hp]

/-- C4: approving a pending showing always succeeds, storing a non-null
lockbox code of exactly six (zero-padded) ASCII digits, an expiry equal
to `scheduled_at + 75` minutes, and status `approved`; a second approve
call on the same showing then fails with the invalid-state error. -/
theorem approve_pending_showing_spec (st : State) (rng rng2 : Nat) (sid : String)
    (s : Showing) (hf : findKey Showing.id st.showings sid = some s)
    (hp : s.status = .pending) :
    ∃ st' s', approve_showing st rng sid = .ok st' ∧
      findKey Showing.id st'.showings sid = some s' ∧
      s'.lockbox_code = some (generate_lockbox_code rng) ∧
      (generate_lockbox_code rng).length = 6 ∧
      (∀ c ∈ (generate_lockbox_code rng).toList, c.isDigit = true) ∧
      s'.code_expires_at = some (s.scheduled_at + 75) ∧
      s'.status = .approved ∧
      approve_showing st' rng2 sid = .error .invalidState := by
  refine ⟨_, approveUpd rng s, approve_showing_eq_ok hf hp, ?_, rfl,
    generate_lockbox_code_length rng, generate_lockbox_code_digits rng, rfl, rfl, ?_⟩
  · show findKey Showing.id (updateKey Showing.id st.showings sid (approveUpd rng)) sid =
      some (approveUpd rng s)
    rw [findKey_updateKey_self Showing.id _ (approveUpd_id rng), hf]
    rfl
  · refine @approve_showing_eq_error _ rng2 sid (approveUpd rng s) ?_ ?_
    · show findKey Showing.id (updateKey Showing.id st.showings sid (approveUpd rng)) sid =
        some (approveUpd rng s)
      rw [findKey_updateKey_self Showing.id _ (approveUpd_id rng), hf]
      rfl
    · exact fun h => nomatch h

/-- C4 witness: the approve theorem applied at a concrete pending
showing with RNG draws 123456 and 7. -/
theorem approve_pending_showing_spec_witness :
    ∃ st' s',
      approve_showing
        { properties := [{ id := "p1", auto_approve_showings := false,
                           requires_disclosure_approval := false }],
          showings := [{ id := "s1", property_id := "p1", client_name := "alice",
                         scheduled_at := 600, status := .pending, lockbox_code := none,
                         code_expires_at := none }],
          blocked_times := [], packages := [], package_shares := [],
          disclosures := [] } 123456 "s1" = .ok st' ∧
      findKey Showing.id st'.showings "s1" = some s' ∧
      s'.lockbox_code = some (generate_lockbox_code 123456) ∧
      (generate_lockbox_code 123456).length = 6 ∧
      (∀ c ∈ (generate_lockbox_code 123456).toList, c.isDigit = true) ∧
      s'.code_expires_at = some ((600 : Int) + 75) ∧
      s'.status = .approved ∧
      approve_showing st' 7 "s1" = .error .invalidState :=
  approve_pending_showing_spec
    { properties := [{ id := "p1", auto_approve_showings := false,
                       requires_disclosure_approval := false }],
      showings := [{ id := "s1", property_id := "p1", client_name := "alice",
                     scheduled_at := 600, status := .pending, lockbox_code := none,
                     code_expires_at := none }],
      blocked_times := [], packages := [], package_shares := [],
      disclosures := [] } 123456 7 "s1"
    { id := "s1", property_id := "p1", client_name := "alice",
      scheduled_at := 600, status := .pending, lockbox_code := none,
      code_expires_at := none } (by rfl) (by rfl)

/-- C5: `is_time_blocked` is true exactly when the window strictly
overlaps some blocked range of the property (`start < b_end` and
`end > b_start`), `has_conflict` is true exactly when the window
strictly overlaps the one-hour window of some non-declined showing of
the property, and consequently a window that merely touches a block or
another showing's window at an endpoint (half-open adjacency) is
neither blocked nor a conflict. -/
theorem half_open_overlap_semantics (st : State) (pid : String) (start stop : Int) :
    (is_time_blocked st pid start stop = true ↔
      ∃ b ∈ st.blocked_times, b.property_id = pid ∧ start < b.bend ∧ stop > b.bstart) ∧
    (has_conflict st pid start stop = true ↔
      ∃ s ∈ st.showings, s.property_id = pid ∧ s.status ≠ Status.declined ∧
        start < s.scheduled_at + 60 ∧ stop > s.scheduled_at) ∧
    ((∀ b ∈ st.blocked_times, b.property_id = pid → stop ≤ b.bstart ∨ b.bend ≤ start) →
      is_time_blocked st pid start stop = false) ∧
    ((∀ s ∈ st.showings, s.property_id = pid → s.status ≠ Status.declined →
        stop ≤ s.scheduled_at ∨ s.scheduled_at + 60 ≤ start) →
      has_conflict st pid start stop = false) := by
  refine ⟨?_, ?_, ?_, ?_⟩
  · rw [is_time_blocked, List.any_eq_true]
    constructor
    · rintro ⟨b, hb, hcond⟩
      by_cases hbp : b.property_id ≠ pid
      · rw [if_pos hbp] at hcond; cases hcond
      · rw [if_neg hbp] at hcond
        push_neg at hbp
        exact ⟨b, hb, hbp, of_decide_eq_true hcond⟩
    · rintro ⟨b, hb, hbp, h1, h2⟩
      exact ⟨b, hb, by rw [if_neg (not_not_intro hbp)]; exact decide_eq_true ⟨h1, h2⟩⟩
  · rw [has_conflict, List.any_eq_true]
    constructor
    · rintro ⟨s, hs, hcond⟩
      by_cases hskip : s.property_id ≠ pid ∨ s.status = Status.declined
      · rw [if_pos hskip] at hcond; cases hcond
      · rw [if_neg hskip] at hcond
        push_neg at hskip
        exact ⟨s, hs, hskip.1, hskip.2, of_decide_eq_true hcond⟩
    · rintro ⟨s, hs, hpid, hnd, h1, h2⟩
      exact ⟨s, hs, by
        rw [if_neg (not_or.mpr ⟨not_not_intro hpid, hnd⟩)]
        exact decide_eq_true ⟨h1, h2⟩⟩
  · intro h
    rw [is_time_blocked, List.any_eq_false]
    intro b hb
    by_cases hbp : b.property_id ≠ pid
    · rw [if_pos hbp]
      exact fun hfalse => nomatch hfalse
    · rw [if_neg hbp]
      push_neg at hbp
      intro hd
      rcases of_decide_eq_true hd with ⟨h1, h2⟩
      rcases h b hb hbp with h3 | h3 <;> omega
  · intro h
    rw [has_conflict, List.any_eq_false]
    intro s hs
    by_cases hskip : s.property_id ≠ pid ∨ s.status = Status.declined
    · rw [if_pos hskip]
      exact fun hfalse => nomatch hfalse
    · rw [if_neg hskip]
      push_neg at hskip
      intro hd
      rcases of_decide_eq_true hd with ⟨h1, h2⟩
      rcases h s hs hskip.1 hskip.2 with h3 | h3 <;> omega

/-- C5 witness: on a property with a blocked range `[600, 660)` and a
pending showing with window `[540, 600)`, the adjacent window
`[600, 660+60)` shifted to `[660, 720)` for the block and `[600, 660)`
for the showing are not flagged: here the window `[660, 720)` touches
the block only at its endpoint and the window starts exactly when the
showing's window ends, so neither check fires. -/
theorem half_open_overlap_semantics_witness :
    is_time_blocked
      { properties := [{ id := "p1", auto_approve_showings := false,
                         requires_disclosure_approval := false }],
        showings := [{ id := "s1", property_id := "p1", client_name := "alice",
                       scheduled_at := 540, status := .pending, lockbox_code := none,
                       code_expires_at := none }],
        blocked_times := [{ property_id := "p1", bstart := 600, bend := 660 }],
        packages := [], package_shares := [], disclosures := [] } "p1" 660 720 = false ∧
    has_conflict
      { properties := [{ id := "p1", auto_approve_showings := false,
                         requires_disclosure_approval := false }],
        showings := [{ id := "s1", property_id := "p1", client_name := "alice",
                       scheduled_at := 540, status := .pending, lockbox_code := none,
                       code_expires_at := none }],
        blocked_times := [{ property_id := "p1", bstart := 600, bend := 660 }],
        packages := [], package_shares := [], disclosures := [] } "p1" 600 660 = false :=
  ⟨(half_open_overlap_semantics
      { properties := [{ id := "p1", auto_approve_showings := false,
                         requires_disclosure_approval := false }],
        showings := [{ id := "s1", property_id := "p1", client_name := "alice",
                       scheduled_at := 540, status := .pending, lockbox_code := none,
                       code_expires_at := none }],
        blocked_times := [{ property_id := "p1", bstart := 600, bend := 660 }],
        packages := [], package_shares := [], disclosures := [] } "p1" 660 720).2.2.1
      (by decide),
   (half_open_overlap_semantics
      { properties := [{ id := "p1", auto_approve_showings := false,
                         requires_disclosure_approval := false }],
        showings := [{ id := "s1", property_id := "p1", client_name := "alice",
                       scheduled_at := 540, status := .pending, lockbox_code := none,
                       code_expires_at := none }],
        blocked_times := [{ property_id := "p1", bstart := 600, bend := 660 }],
        packages := [], package_shares := [], disclosures := [] } "p1" 600 660).2.2.2
      (by decide)⟩

/-- C6 (amended): on a successful reschedule the status is unchanged
and the new start is stored; when the status was `approved` the lockbox
code is a fresh RNG draw (with no guarantee that it differs from the
previous code) and the expiry is the new start + 75 minutes; when the
status was `pending` the lockbox fields are untouched. -/
theorem reschedule_frame_effects (st : State) (rng : Nat) (sid : String) (start : Int)
    (s : Showing) (st' : State)
    (hf : findKey Showing.id st.showings sid = some s)
    (h : reschedule_showing st rng sid start = .ok st') :
    ∃ s', findKey Showing.id st'.showings sid = some s' ∧
      s'.status = s.status ∧
      s'.scheduled_at = start ∧
      (s.status = .approved →
        s'.lockbox_code = some (generate_lockbox_code rng) ∧
        s'.code_expires_at = some (start + 75)) ∧
      (s.status = .pending →
        s'.lockbox_code = s.lockbox_code ∧ s'.code_expires_at = s.code_expires_at) := by
  rcases reschedule_showing_ok h with ⟨s0, hf0, hb, hc, rfl⟩
  rw [hf0] at hf
  cases hf
  refine ⟨rescheduleUpd rng start s, ?_, rescheduleUpd_status rng start s,
    rescheduleUpd_scheduled_at rng start s, ?_, ?_⟩
  · show findKey Showing.id (updateKey Showing.id st.showings sid (rescheduleUpd rng start)) sid =
      some (rescheduleUpd rng start s)
    rw [findKey_updateKey_self Showing.id _ (rescheduleUpd_id rng start), hf0]
    rfl
  · intro hap
    unfold rescheduleUpd
    rw [if_pos hap]
    exact ⟨rfl, rfl⟩
  · intro hpend
    unfold rescheduleUpd
    rw [if_neg (by rw [hpend]; exact fun hd => nomatch hd)]
    exact ⟨rfl, rfl⟩

/-- C6 witness: the frame-effect theorem applied to a concrete approved
showing moved from minute 0 to minute 300 with RNG draw 42. -/
theorem reschedule_frame_effects_witness :
    ∃ s', findKey Showing.id
        (updateKey Showing.id
          [{ id := "s1", property_id := "p1", client_name := "alice",
             scheduled_at := 0, status := .approved, lockbox_code := some "000042",
             code_expires_at := some 75 }] "s1" (rescheduleUpd 42 300)) "s1" = some s' ∧
      s'.status = .approved ∧
      s'.scheduled_at = 300 ∧
      s'.lockbox_code = some (generate_lockbox_code 42) ∧
      s'.code_expires_at = some ((300 : Int) + 75) := by
  rcases reschedule_frame_effects
    { properties := [{ id := "p1", auto_approve_showings := false,
                       requires_disclosure_approval := false }],
      showings := [{ id := "s1", property_id := "p1", client_name := "alice",
                     scheduled_at := 0, status := .approved, lockbox_code := some "000042",
                     code_expires_at := some 75 }],
      blocked_times := [], packages := [], package_shares := [], disclosures := [] }
    42 "s1" 300
    { id := "s1", property_id := "p1", client_name := "alice",
      scheduled_at := 0, status := .approved, lockbox_code := some "000042",
      code_expires_at := some 75 }
    _ (by rfl) (by rfl) with ⟨s', h1, h2, h3, h4, h5⟩
  exact ⟨s', h1, h2, h3, (h4 rfl).1, (h4 rfl).2⟩

/-- C6 counterexample: the claim says the regenerated code always
differs from the previous one, but `generate_lockbox_code` is an
unconstrained RNG draw: with the previous code "000000" and a reschedule
whose RNG draw is 0, the showing's code after the successful reschedule
is again "000000". -/
theorem reschedule_can_regenerate_same_code :
    generate_lockbox_code 0 = "000000" ∧
    reschedule_showing
      { properties := [{ id := "p1", auto_approve_showings := false,
                         requires_disclosure_approval := false }],
        showings := [{ id := "s1", property_id := "p1", client_name := "alice",
                       scheduled_at := 0, status := .approved,
                       lockbox_code := some "000000", code_expires_at := some 75 }],
        blocked_times := [], packages := [], package_shares := [], disclosures := [] }
      0 "s1" 300 =
    .ok { properties := [{ id := "p1", auto_approve_showings := false,
                           requires_disclosure_approval := false }],
          showings := [{ id := "s1", property_id := "p1", client_name := "alice",
                         scheduled_at := 300, status := .approved,
                         lockbox_code := some "000000", code_expires_at := some 375 }],
          blocked_times := [], packages := [], package_shares := [], disclosures := [] } :=
  ⟨rfl, rfl⟩

/-- C7: `get_lockbox_code` never changes the state; it fails with the
not-found error for an unknown id; fails with the not-approved error
whenever the status is not `approved` or no (non-empty) code is stored;
fails with the distinct code-expired error when the expiry is present
and strictly before the current time; and otherwise returns the stored
code together with its expiry. -/
theorem get_lockbox_code_spec (st : State) (now : Int) (sid : String) :
    (get_lockbox_code st now sid).2 = st ∧
    (findKey Showing.id st.showings sid = none →
      (get_lockbox_code st now sid).1 = .error .showingNotFound) ∧
    (∀ s, findKey Showing.id st.showings sid = some s →
      ((s.status ≠ .approved ∨ s.lockbox_code.getD "" = "") →
        (get_lockbox_code st now sid).1 = .error .notApproved) ∧
      (∀ c e, s.status = .approved → s.lockbox_code = some c → c ≠ "" →
        s.code_expires_at = some e →
        (now > e → (get_lockbox_code st now sid).1 = .error .codeExpired) ∧
        (¬ now > e → (get_lockbox_code st now sid).1 = .ok (c, some e)))) := by
  refine ⟨?_, ?_, ?_⟩
  · unfold get_lockbox_code
    split
    · rfl
    · split
      · rfl
      · split
        · split <;> rfl
        · rfl
  · intro hf
    unfold get_lockbox_code
    rw [hf]
  · intro s hf
    have hbase : get_lockbox_code st now sid =
        (if s.status ≠ Status.approved ∨ s.lockbox_code.getD "" = "" then
          (.error .notApproved, st)
        else
          match s.code_expires_at with
          | some e =>
            if now > e then (.error .codeExpired, st)
            else (.ok (s.lockbox_code.getD "", s.code_expires_at), st)
          | none => (.ok (s.lockbox_code.getD "", s.code_expires_at), st)) := by
      unfold get_lockbox_code
      rw [hf]
    constructor
    · intro hbad
      rw [hbase, if_pos hbad]
    · intro c e hap hcode hc he
      have hcond : ¬(s.status ≠ Status.approved ∨ s.lockbox_code.getD "" = "") :=
        not_or.mpr ⟨not_not_intro hap, by rw [hcode]; exact hc⟩
      have hbase2 : get_lockbox_code st now sid =
          (if now > e then (.error .codeExpired, st)
           else (.ok (s.lockbox_code.getD "", some e), st)) := by
        rw [hbase, if_neg hcond, he]
      constructor
      · intro hnow
        rw [hbase2, if_pos hnow]
      · intro hnow
        rw [hbase2, if_neg hnow, hcode]
        rfl

/-- C7 witness: the lockbox read theorem applied at a concrete approved
showing (code "123456", expiry minute 675) queried at minute 600 for the
success branch, and at minute 700 for the expired branch. -/
theorem get_lockbox_code_spec_witness :
    (get_lockbox_code
      { properties := [{ id := "p1", auto_approve_showings := false,
                         requires_disclosure_approval := false }],
        showings := [{ id := "s1", property_id := "p1", client_name := "alice",
                       scheduled_at := 600, status := .approved,
                       lockbox_code := some "123456", code_expires_at := some 675 }],
        blocked_times := [], packages := [], package_shares := [], disclosures := [] }
      600 "s1").1 = .ok ("123456", some 675) ∧
    (get_lockbox_code
      { properties := [{ id := "p1", auto_approve_showings := false,
                         requires_disclosure_approval := false }],
        showings := [{ id := "s1", property_id := "p1", client_name := "alice",
                       scheduled_at := 600, status := .approved,
                       lockbox_code := some "123456", code_expires_at := some 675 }],
        blocked_times := [], packages := [], package_shares := [], disclosures := [] }
      700 "s1").1 = .error .codeExpired :=
  ⟨(((get_lockbox_code_spec
      { properties := [{ id := "p1", auto_approve_showings := false,
                         requires_disclosure_approval := false }],
        showings := [{ id := "s1", property_id := "p1", client_name := "alice",
                       scheduled_at := 600, status := .approved,
                       lockbox_code := some "123456", code_expires_at := some 675 }],
        blocked_times := [], packages := [], package_shares := [], disclosures := [] }
      600 "s1").2.2 _ (by rfl)).2 "123456" 675 rfl rfl (by decide) rfl).2 (by decide),
   (((get_lockbox_code_spec
      { properties := [{ id := "p1", auto_approve_showings := false,
                         requires_disclosure_approval := false }],
        showings := [{ id := "s1", property_id := "p1", client_name := "alice",
                       scheduled_at := 600, status := .approved,
                       lockbox_code := some "123456", code_expires_at := some 675 }],
        blocked_times := [], packages := [], package_shares := [], disclosures := [] }
      700 "s1").2.2 _ (by rfl)).2 "123456" 675 rfl rfl (by decide) rfl).1 (by decide)⟩

lemma request_disclosure_eq_ok {st : State} {pid pkgid buyer shid : String}
    {p : Property} {pkg : Package}
    (hprop : findKey Property.id st.properties pid = some p)
    (hpkg : findKey Package.id st.packages pkgid = some pkg)
    (hbelong : pkg.property_id = pid)
    (hpkgid : pkgid ≠ "") (hbuyer : buyer ≠ "") :
    request_disclosure st pid pkgid buyer shid =
      .ok { st with package_shares := st.package_shares ++
        [{ id := shid, package_id := pkgid, property_id := pid, buyer_name := buyer,
           downloads := [], approved := !p.requires_disclosure_approval }] } := by
  unfold request_disclosure
  rw [if_neg (by rw [hprop]; exact fun hd => nomatch hd)]
  rw [if_neg (not_or.mpr ⟨hpkgid, hbuyer⟩)]
  rw [hpkg]
  dsimp only
  rw [if_neg (not_not_intro hbelong), hprop]

lemma approve_share_eq_ok_of_unapproved {st : State} {shid : String} {sh : Share}
    (hf : findKey Share.id st.package_shares shid = some sh)
    (ha : sh.approved = false) :
    approve_share st shid =
      .ok { st with package_shares := updateKey Share.id st.package_shares shid approveShareUpd } := by
  unfold approve_share
  rw [hf]
  dsimp only
  rw [if_neg (by rw [ha]; exact fun hd => nomatch hd)]

lemma approve_share_eq_ok_of_approved {st : State} {shid : String} {sh : Share}
    (hf : findKey Share.id st.package_shares shid = some sh)
    (ha : sh.approved = true) :
    approve_share st shid = .ok st := by
  unfold approve_share
  rw [hf]
  dsimp only
  rw [if_pos ha]

lemma share_download_eq_not_approved {sanitize : String → String} {st : State}
    {now : Int} {shid fn : String} {sh : Share} {pkg : Package}
    (hsh : findKey Share.id st.package_shares shid = some sh)
    (hpkg : findKey Package.id st.packages sh.package_id = some pkg)
    (hmem : sanitize fn ∈ pkg.files) (ha : sh.approved = false) :
    share_download sanitize st now shid fn = .error .downloadNotApproved := by
  unfold share_download
  rw [hsh]
  dsimp only
  rw [hpkg]
  dsimp only
  rw [if_pos hmem]
  rw [if_neg (by rw [ha]; exact fun hd => nomatch hd)]

lemma share_download_eq_ok {sanitize : String → String} {st : State}
    {now : Int} {shid fn : String} {sh : Share} {pkg : Package} {data : String}
    (hsh : findKey Share.id st.package_shares shid = some sh)
    (hpkg : findKey Package.id st.packages sh.package_id = some pkg)
    (hmem : sanitize fn ∈ pkg.files) (ha : sh.approved = true)
    (hdata : discGet st.disclosures pkg.property_id (sanitize fn) = some data) :
    share_download sanitize st now shid fn =
      .ok ({ st with package_shares := updateKey Share.id st.package_shares shid (recordDownloadUpd (sanitize fn) now) }, data) := by
  unfold share_download
  rw [hsh]
  dsimp only
  rw [hpkg]
  dsimp only
  rw [if_pos hmem, if_pos ha, hdata]

lemma findKey_append_fresh {α : Type} (key : α → String) {l : List α} {k : String}
    (x : α) (hfresh : findKey key l k = none) (hx : key x = k) :
    findKey key (l ++ [x]) k = some x := by
  rw [findKey_append_right key _ hfresh, findKey, if_pos hx]

/-- C8: for a property with `requires_disclosure_approval = true`, a
share created by `request_disclosure` starts unapproved; while it is
unapproved, downloading any file of its package fails with the
not-approved error; after `approve_share`, downloading a package file
whose bytes are in the disclosures store succeeds, returns the stored
bytes, and appends exactly one download record. -/
theorem disclosure_share_gating (st : State) (now : Int)
    (sanitize : String → String) (pid pkgid buyer shid fn : String)
    (p : Property) (pkg : Package) (data : String)
    (hprop : findKey Property.id st.properties pid = some p)
    (hreq : p.requires_disclosure_approval = true)
    (hpkg : findKey Package.id st.packages pkgid = some pkg)
    (hbelong : pkg.property_id = pid)
    (hpkgid : pkgid ≠ "") (hbuyer : buyer ≠ "")
    (hfresh : findKey Share.id st.package_shares shid = none)
    (hfile : sanitize fn ∈ pkg.files)
    (hdata : discGet st.disclosures pid (sanitize fn) = some data) :
    ∃ st1, request_disclosure st pid pkgid buyer shid = .ok st1 ∧
      (∃ sh1, findKey Share.id st1.package_shares shid = some sh1 ∧
        sh1.approved = false ∧ sh1.downloads = []) ∧
      share_download sanitize st1 now shid fn = .error .downloadNotApproved ∧
      ∃ st2, approve_share st1 shid = .ok st2 ∧
        (∃ sh2, findKey Share.id st2.package_shares shid = some sh2 ∧
          sh2.approved = true ∧ sh2.downloads = []) ∧
        ∃ st3, share_download sanitize st2 now shid fn = .ok (st3, data) ∧
          ∃ sh3, findKey Share.id st3.package_shares shid = some sh3 ∧
            sh3.downloads = [(sanitize fn, now)] := by
  have hfalse : (!p.requires_disclosure_approval) = false := by rw [hreq]; rfl
  have hsh1 : findKey Share.id
      (st.package_shares ++
        [{ id := shid, package_id := pkgid, property_id := pid, buyer_name := buyer,
           downloads := [], approved := !p.requires_disclosure_approval }]) shid =
      some { id := shid, package_id := pkgid, property_id := pid, buyer_name := buyer,
             downloads := [], approved := !p.requires_disclosure_approval } :=
    findKey_append_fresh Share.id _ hfresh rfl
  have hsh2 : findKey Share.id
      (updateKey Share.id
        (st.package_shares ++
          [{ id := shid, package_id := pkgid, property_id := pid, buyer_name := buyer,
             downloads := [], approved := !p.requires_disclosure_approval }])
        shid approveShareUpd) shid =
      some (approveShareUpd
        { id := shid, package_id := pkgid, property_id := pid, buyer_name := buyer,
          downloads := [], approved := !p.requires_disclosure_approval }) := by
    rw [findKey_updateKey_self Share.id _ approveShareUpd_id, hsh1]
    rfl
  refine ⟨_, @request_disclosure_eq_ok st pid pkgid buyer shid p pkg
      hprop hpkg hbelong hpkgid hbuyer, ?_, ?_, ?_⟩
  · exact ⟨_, hsh1, hfalse, rfl⟩
  · exact share_download_eq_not_approved hsh1 hpkg hfile hfalse
  · refine ⟨_, approve_share_eq_ok_of_unapproved hsh1 hfalse, ?_, ?_⟩
    · exact ⟨_, hsh2, rfl, hfalse ▸ rfl⟩
    · have hsh3 : findKey Share.id
          (updateKey Share.id
            (updateKey Share.id
              (st.package_shares ++
                [{ id := shid, package_id := pkgid, property_id := pid, buyer_name := buyer,
                   downloads := [], approved := !p.requires_disclosure_approval }])
              shid approveShareUpd)
            shid (recordDownloadUpd (sanitize fn) now)) shid =
          some (recordDownloadUpd (sanitize fn) now (approveShareUpd
            { id := shid, package_id := pkgid, property_id := pid, buyer_name := buyer,
              downloads := [], approved := !p.requires_disclosure_approval })) := by
        rw [findKey_updateKey_self Share.id _ (recordDownloadUpd_id _ _), hsh2]
        rfl
      exact ⟨_, share_download_eq_ok hsh2 hpkg hfile rfl
        (by rw [hbelong]; exact hdata), _, hsh3, rfl⟩

/-- C8 witness: the gating theorem applied to a concrete approval-gated
property, package and share, with the identity sanitizer. -/
theorem disclosure_share_gating_witness :
    ∃ st1, request_disclosure
        { properties := [{ id := "p1", auto_approve_showings := false,
                           requires_disclosure_approval := true }],
          showings := [], blocked_times := [],
          packages := [{ id := "k1", property_id := "p1", files := ["a.pdf"] }],
          package_shares := [],
          disclosures := [("p1", "a.pdf", "PDFDATA")] } "p1" "k1" "bob" "h1" = .ok st1 ∧
      (∃ sh1, findKey Share.id st1.package_shares "h1" = some sh1 ∧
        sh1.approved = false ∧ sh1.downloads = []) ∧
      share_download (fun x => x) st1 500 "h1" "a.pdf" = .error .downloadNotApproved ∧
      ∃ st2, approve_share st1 "h1" = .ok st2 ∧
        (∃ sh2, findKey Share.id st2.package_shares "h1" = some sh2 ∧
          sh2.approved = true ∧ sh2.downloads = []) ∧
        ∃ st3, share_download (fun x => x) st2 500 "h1" "a.pdf" = .ok (st3, "PDFDATA") ∧
          ∃ sh3, findKey Share.id st3.package_shares "h1" = some sh3 ∧
            sh3.downloads = [("a.pdf", 500)] :=
  disclosure_share_gating
    { properties := [{ id := "p1", auto_approve_showings := false,
                       requires_disclosure_approval := true }],
      showings := [], blocked_times := [],
      packages := [{ id := "k1", property_id := "p1", files := ["a.pdf"] }],
      package_shares := [],
      disclosures := [("p1", "a.pdf", "PDFDATA")] } 500 (fun x => x)
    "p1" "k1" "bob" "h1" "a.pdf"
    { id := "p1", auto_approve_showings := false, requires_disclosure_approval := true }
    { id := "k1", property_id := "p1", files := ["a.pdf"] } "PDFDATA"
    (by rfl) (by rfl) (by rfl) (by rfl) (by decide) (by decide) (by rfl)
    (by decide) (by rfl)

/-- One state transition of the embedded operation set: any of the
embedded routes that can change the stores, applied successfully. -/
inductive Steps : State → State → Prop where
  | request {st st' : State} (rng : Nat) (pid : String) (start : Int) (cn sid : String)
      (h : showing_list_post st rng pid start cn sid = .ok st') : Steps st st'
  | approve {st st' : State} (rng : Nat) (sid : String)
      (h : approve_showing st rng sid = .ok st') : Steps st st'
  | decline {st st' : State} (sid : String)
      (h : decline_showing st sid = .ok st') : Steps st st'
  | reschedule {st st' : State} (rng : Nat) (sid : String) (start : Int)
      (h : reschedule_showing st rng sid start = .ok st') : Steps st st'
  | requestDisclosure {st st' : State} (pid pkgid buyer shid : String)
      (h : request_disclosure st pid pkgid buyer shid = .ok st') : Steps st st'
  | createShare {st st' : State} (pkgid buyer shid : String)
      (h : create_share st pkgid buyer shid = .ok st') : Steps st st'
  | approveShare {st st' : State} (shid : String)
      (h : approve_share st shid = .ok st') : Steps st st'
  | download {st st' : State} (sanitize : String → String) (now : Int)
      (shid fn data : String)
      (h : share_download sanitize st now shid fn = .ok (st', data)) : Steps st st'

/-- C9: a share's `approved` flag is initialized by `create_share` to
the negation of the property's `requires_disclosure_approval` flag;
`approve_share` on an already-approved share is a no-op returning the
state unchanged; and across every embedded operation an approved share
stays approved. -/
theorem share_approved_flag_lifecycle (st : State) :
    (∀ pkgid buyer shid st' pkg p,
       create_share st pkgid buyer shid = .ok st' →
       findKey Package.id st.packages pkgid = some pkg →
       findKey Property.id st.properties pkg.property_id = some p →
       findKey Share.id st.package_shares shid = none →
       ∃ sh, findKey Share.id st'.package_shares shid = some sh ∧
         sh.approved = !p.requires_disclosure_approval) ∧
    (∀ shid sh, findKey Share.id st.package_shares shid = some sh →
       sh.approved = true → approve_share st shid = .ok st) ∧
    (∀ st' shid sh, findKey Share.id st.package_shares shid = some sh →
       sh.approved = true → Steps st st' →
       ∃ sh', findKey Share.id st'.package_shares shid = some sh' ∧
         sh'.approved = true) := by
  refine ⟨?_, ?_, ?_⟩
  · intro pkgid buyer shid st' pkg p hok hpkg hp hfresh
    rcases create_share_ok hok with ⟨pkg0, hpkg0, rfl⟩
    rw [hpkg0] at hpkg
    cases hpkg
    refine ⟨_, findKey_append_fresh Share.id _ hfresh rfl, ?_⟩
    show (match findKey Property.id st.properties pkg.property_id with
          | some p => !p.requires_disclosure_approval
          | none => true) = !p.requires_disclosure_approval
    rw [hp]
  · intro shid sh hf ha
    exact approve_share_eq_ok_of_approved hf ha
  · intro st' shid sh hf ha hstep
    cases hstep with
    | request rng pid start cn sid h =>
      rcases showing_list_post_ok h with ⟨p, hp, hb, hc, hcase⟩
      rcases hcase with ⟨_, rfl⟩ | ⟨_, rfl⟩ <;> exact ⟨sh, hf, ha⟩
    | approve rng sid h =>
      rcases approve_showing_ok h with ⟨s, hs1, hs2, rfl⟩
      exact ⟨sh, hf, ha⟩
    | decline sid h =>
      rcases decline_showing_ok h with ⟨s, hs1, hs2, rfl⟩
      exact ⟨sh, hf, ha⟩
    | reschedule rng sid start h =>
      rcases reschedule_showing_ok h with ⟨s, hs1, hs2, hs3, rfl⟩
      exact ⟨sh, hf, ha⟩
    | requestDisclosure pid pkgid buyer shid2 h =>
      rcases request_disclosure_ok h with ⟨pkg, p, hp1, hp2, hp3, rfl⟩
      exact ⟨sh, findKey_append_left Share.id _ hf, ha⟩
    | createShare pkgid buyer shid2 h =>
      rcases create_share_ok h with ⟨pkg, hp1, rfl⟩
      exact ⟨sh, findKey_append_left Share.id _ hf, ha⟩
    | approveShare shid2 h =>
      rcases approve_share_ok h with ⟨sh2, hf2, hcase⟩
      rcases hcase with ⟨ha2, rfl⟩ | ⟨ha2, rfl⟩
      · exact ⟨sh, hf, ha⟩
      · by_cases heq : shid = shid2
        · subst heq
          refine ⟨approveShareUpd sh, ?_, rfl⟩
          show findKey Share.id
            (updateKey Share.id st.package_shares shid approveShareUpd) shid =
            some (approveShareUpd sh)
          rw [findKey_updateKey_self Share.id _ approveShareUpd_id, hf]
          rfl
        · refine ⟨sh, ?_, ha⟩
          show findKey Share.id
            (updateKey Share.id st.package_shares shid2 approveShareUpd) shid = some sh
          rw [findKey_updateKey_ne Share.id _ approveShareUpd_id heq]
          exact hf
    | download sanitize now shid2 fn data h =>
      rcases share_download_ok h with ⟨sh2, pkg, hf2, hpkg2, hmem, ha2, hd, rfl⟩
      by_cases heq : shid = shid2
      · subst heq
        rw [hf2] at hf
        cases hf
        refine ⟨recordDownloadUpd (sanitize fn) now sh, ?_, ha⟩
        show findKey Share.id
          (updateKey Share.id st.package_shares shid (recordDownloadUpd (sanitize fn) now))
          shid = some (recordDownloadUpd (sanitize fn) now sh)
        rw [findKey_updateKey_self Share.id _ (recordDownloadUpd_id _ _), hf2]
        rfl
      · refine ⟨sh, ?_, ha⟩
        show findKey Share.id
          (updateKey Share.id st.package_shares shid2 (recordDownloadUpd (sanitize fn) now))
          shid = some sh
        rw [findKey_updateKey_ne Share.id _ (recordDownloadUpd_id _ _) heq]
        exact hf

/-- C9 witness: the lifecycle theorem applied at a concrete
already-approved share — the idempotent no-op re-approval, and the
monotonicity conclusion across that very re-approval step. -/
theorem share_approved_flag_lifecycle_witness :
    approve_share
      { properties := [], showings := [], blocked_times := [], packages := [],
        package_shares := [{ id := "h1", package_id := "k1", property_id := "p1",
                             buyer_name := "bob", downloads := [], approved := true }],
        disclosures := [] } "h1" =
      .ok { properties := [], showings := [], blocked_times := [], packages := [],
            package_shares := [{ id := "h1", package_id := "k1", property_id := "p1",
                                 buyer_name := "bob", downloads := [], approved := true }],
            disclosures := [] } ∧
    ∃ sh', findKey Share.id
        ({ properties := [], showings := [], blocked_times := [], packages := [],
           package_shares := [{ id := "h1", package_id := "k1", property_id := "p1",
                                buyer_name := "bob", downloads := [], approved := true }],
           disclosures := [] } : State).package_shares "h1" = some sh' ∧
      sh'.approved = true := by
  have hid : approve_share
      { properties := [], showings := [], blocked_times := [], packages := [],
        package_shares := [{ id := "h1", package_id := "k1", property_id := "p1",
                             buyer_name := "bob", downloads := [], approved := true }],
        disclosures := [] } "h1" =
      .ok { properties := [], showings := [], blocked_times := [], packages := [],
            package_shares := [{ id := "h1", package_id := "k1", property_id := "p1",
                                 buyer_name := "bob", downloads := [], approved := true }],
            disclosures := [] } :=
    (share_approved_flag_lifecycle
      { properties := [], showings := [], blocked_times := [], packages := [],
        package_shares := [{ id := "h1", package_id := "k1", property_id := "p1",
                             buyer_name := "bob", downloads := [], approved := true }],
        disclosures := [] }).2.1 "h1"
      { id := "h1", package_id := "k1", property_id := "p1",
        buyer_name := "bob", downloads := [], approved := true } (by rfl) (by rfl)
  refine ⟨hid, ?_⟩
  exact (share_approved_flag_lifecycle
      { properties := [], showings := [], blocked_times := [], packages := [],
        package_shares := [{ id := "h1", package_id := "k1", property_id := "p1",
                             buyer_name := "bob", downloads := [], approved := true }],
        disclosures := [] }).2.2 _ "h1"
    { id := "h1", package_id := "k1", property_id := "p1",
      buyer_name := "bob", downloads := [], approved := true } (by rfl) (by rfl)
    (Steps.approveShare "h1" hid)

/-- C10: when the sanitized filename is not among the share's package
files, `share_download` fails with the file-not-found error even for an
unapproved share: the membership check precedes the approval check, and
the two error kinds are distinct. -/
theorem download_unknown_file_not_found (sanitize : String → String) (st : State)
    (now : Int) (shid fn : String) (sh : Share) (pkg : Package)
    (hsh : findKey Share.id st.package_shares shid = some sh)
    (hpkg : findKey Package.id st.packages sh.package_id = some pkg)
    (ha : sh.approved = false)
    (hmem : sanitize fn ∉ pkg.files) :
    share_download sanitize st now shid fn = .error .fileNotFoundInPackage ∧
    ApiError.fileNotFoundInPackage ≠ ApiError.downloadNotApproved := by
  constructor
  · unfold share_download
    rw [hsh]
    dsimp only
    rw [hpkg]
    dsimp only
    rw [if_neg hmem]
  · exact fun hd => nomatch hd

/-- C10 witness: the theorem applied to a concrete unapproved share and
a filename that is not in the package. -/
theorem download_unknown_file_not_found_witness :
    share_download (fun x => x)
      { properties := [], showings := [], blocked_times := [],
        packages := [{ id := "k1", property_id := "p1", files := ["a.pdf"] }],
        package_shares := [{ id := "h1", package_id := "k1", property_id := "p1",
                             buyer_name := "bob", downloads := [], approved := false }],
        disclosures := [("p1", "a.pdf", "PDFDATA")] } 500 "h1" "b.pdf" =
      .error .fileNotFoundInPackage ∧
    ApiError.fileNotFoundInPackage ≠ ApiError.downloadNotApproved :=
  download_unknown_file_not_found (fun x => x)
    { properties := [], showings := [], blocked_times := [],
      packages := [{ id := "k1", property_id := "p1", files := ["a.pdf"] }],
      package_shares := [{ id := "h1", package_id := "k1", property_id := "p1",
                           buyer_name := "bob", downloads := [], approved := false }],
      disclosures := [("p1", "a.pdf", "PDFDATA")] } 500 "h1" "b.pdf"
    { id := "h1", package_id := "k1", property_id := "p1",
      buyer_name := "bob", downloads := [], approved := false }
    { id := "k1", property_id := "p1", files := ["a.pdf"] }
    (by rfl) (by rfl) (by rfl) (by decide)
